import Mathlib

/-!
Verification development for the moonwave MCP documentation query server
(the worker generated by the deploy command in
src/cli/src/commands/extract-github.ts, template MCP_SERVER_CODE).

The JavaScript worker is shallowly embedded: every definition below mirrors
one function or expression of the template.  JavaScript truthiness on strings
is modelled explicitly (the empty string is falsy); absent object properties
are modelled with Option; the text payloads the worker builds with string
templates and JSON.stringify are modelled structurally, one constructor per
template, carrying exactly the data the template interpolates (serialization
is a per-constructor function of that data, so structural equality coincides
with byte equality of the serialized text).
-/

/-- JavaScript truthiness of a possibly-absent string: undefined and the
empty string are falsy. -/
def truthyStr : Option String → Bool
  | some s => s != ""
  | none => false

/-- JavaScript `a || b` on possibly-absent strings. -/
def jsOr (a b : Option String) : Option String :=
  if truthyStr a then a else b

/-- String coercion used by JS template literals: undefined prints as
"undefined". -/
def jsShow : Option String → String
  | some s => s
  | none => "undefined"

/-- Whether `needle` is an initial run of `hay` (character lists). -/
def charsLead : List Char → List Char → Bool
  | [], _ => true
  | _ :: _, [] => false
  | a :: as, b :: bs => a == b && charsLead as bs

/-- Whether `needle` occurs contiguously inside `hay` (character lists). -/
def charsWithin (needle : List Char) : List Char → Bool
  | [] => charsLead needle []
  | b :: bs => charsLead needle (b :: bs) || charsWithin needle bs

/-- JavaScript `s.includes(sub)`. -/
def jsIncludes (s sub : String) : Bool :=
  charsWithin sub.toList s.toList

/-- One documented function of a class.  The query engine only inspects
`name`, `function_type` and `desc`; further documentation fields pass
through opaquely and are modelled as an opaque key/value bag. -/
structure FunctionRecord where
  name : String
  function_type : Option String
  desc : Option String
  extra : List (String × String)
deriving DecidableEq, Repr

/-- One documented class as delivered by a source (before aggregation
stamps it). -/
structure ClassRecord where
  name : String
  desc : Option String
  tags : Option (List String)
  functions : Option (List FunctionRecord)
  extra : List (String × String)
deriving DecidableEq, Repr

/-- A class record after aggregation spread it together with the
`_source` / `_sourceUrl` stamps (the worker builds
`{...cls, _source: ..., _sourceUrl: ...}`). -/
structure TaggedClass where
  name : String
  desc : Option String
  tags : Option (List String)
  functions : Option (List FunctionRecord)
  extra : List (String × String)
  _source : String
  _sourceUrl : Option String
deriving DecidableEq, Repr

/-- The spread `{...cls, _source: src, _sourceUrl: u}`. -/
def stampClass (c : ClassRecord) (src : String) (u : Option String) : TaggedClass :=
  ⟨c.name, c.desc, c.tags, c.functions, c.extra, src, u⟩

/-- One configured documentation source (a parsed DOC_SOURCES entry). -/
structure DocSource where
  name : String
  url : Option String
  raw : Option String
  github : Option String
  _embeddedData : Option (List ClassRecord)
deriving DecidableEq, Repr

/-- Outcome of one network fetch of a raw-data URL: `ok` means the HTTP
response was successful and its body parsed as an array of class records;
the other constructors are the three failure modes the worker catches
(non-success status, a thrown fetch, a body that fails to parse). -/
inductive FetchOutcome where
  | ok (data : List ClassRecord)
  | httpError (status : Nat)
  | networkError
  | malformedPayload
deriving DecidableEq, Repr

/-- The state of the network during one aggregation: what fetching each URL
yields. -/
abbrev Net := String → FetchOutcome

/-- JavaScript `url.endsWith('/')`. -/
def endsWithSlash (u : String) : Bool :=
  match u.toList.getLast? with
  | some c => c == '/'
  | none => false

/-- JavaScript `url.slice(0, -1)`. -/
def dropLastChar (u : String) : String :=
  ⟨u.toList.dropLast⟩

/-- `baseUrl + '/raw.json'` with the trailing-slash trim. -/
def rawJsonUrl (u : String) : String :=
  (if endsWithSlash u then dropLastChar u else u) ++ "/raw.json"

/-- The URL the worker fetches for a source, mirroring
`let rawUrl = source.raw; if (!rawUrl && source.url) rawUrl = base + '/raw.json';
if (!rawUrl) continue;` — `none` means the source is skipped. -/
def resolveRawUrl (s : DocSource) : Option String :=
  let r := if !truthyStr s.raw && truthyStr s.url
    then some (rawJsonUrl (s.url.getD "")) else s.raw
  if truthyStr r then r else none

/-- The `_sourceUrl` value a record of source `s` is stamped with: the
embedded branch uses `source.github || source.url || source.raw`, the remote
branch uses `source.url || source.raw`. -/
def stampUrl (s : DocSource) : Option String :=
  match s._embeddedData with
  | some _ => jsOr s.github (jsOr s.url s.raw)
  | none => jsOr s.url s.raw

/-- The records one source contributes to the corpus: one loop iteration of
`fetchAllSources`.  Every failure mode of the remote branch is caught and
contributes nothing. -/
def sourceRecords (net : Net) (s : DocSource) : List TaggedClass :=
  match s._embeddedData with
  | some data => data.map (fun c => stampClass c s.name (jsOr s.github (jsOr s.url s.raw)))
  | none =>
    match resolveRawUrl s with
    | none => []
    | some u =>
      match net u with
      | FetchOutcome.ok data => data.map (fun c => stampClass c s.name (jsOr s.url s.raw))
      | _ => []

/-- The raw (unstamped) record list a source yields under `net`. -/
def sourceData (net : Net) (s : DocSource) : List ClassRecord :=
  match s._embeddedData with
  | some data => data
  | none =>
    match resolveRawUrl s with
    | none => []
    | some u =>
      match net u with
      | FetchOutcome.ok data => data
      | _ => []

/-- The worker's `fetchAllSources`: the `for (const source of sources)` loop
pushing each source's stamped records onto `allData` in registry order. -/
def fetchAllSources (net : Net) : List DocSource → List TaggedClass
  | [] => []
  | s :: rest => sourceRecords net s ++ fetchAllSources net rest

/-- An event of the aggregation run: a network request is initiated
(`issue`) or its outcome has been fully awaited (`complete`). -/
inductive FetchEvent where
  | issue (url : String)
  | complete (url : String)
deriving DecidableEq, Repr

/-- The fetch events one loop iteration produces: the body `await`s the
fetch (and its parse) to completion before the iteration ends, so a remote
source yields its issue immediately followed by its completion; embedded or
skipped sources touch the network not at all. -/
def sourceTrace (s : DocSource) : List FetchEvent :=
  match s._embeddedData with
  | some _ => []
  | none =>
    match resolveRawUrl s with
    | none => []
    | some u => [FetchEvent.issue u, FetchEvent.complete u]

/-- The network-event trace of a whole aggregation run, in program order:
the loop runs its iterations one after another. -/
def fetchTrace : List DocSource → List FetchEvent
  | [] => []
  | s :: rest => sourceTrace s ++ fetchTrace rest

/-- No request is initiated anywhere in the trace. -/
def noIssues : List FetchEvent → Bool
  | [] => true
  | FetchEvent.issue _ :: _ => false
  | FetchEvent.complete _ :: rest => noIssues rest

/-- A concurrent fan-out shape: every request is initiated before any
outcome is awaited. -/
def fanOutShape : List FetchEvent → Bool
  | [] => true
  | FetchEvent.issue _ :: rest => fanOutShape rest
  | FetchEvent.complete _ :: rest => noIssues rest

/-- A strictly sequential shape: the trace is a run of issue/complete pairs,
each request fully awaited before the next is initiated. -/
def seqShape : List FetchEvent → Bool
  | [] => true
  | FetchEvent.issue u :: FetchEvent.complete v :: rest => u == v && seqShape rest
  | _ => false

/-- Arguments of a tools/call invocation; each property of the JSON
`arguments` object is optional. -/
structure ToolArgs where
  name : Option String := none
  source : Option String := none
  query : Option String := none
  tag : Option String := none
  className : Option String := none
  functionName : Option String := none
deriving DecidableEq, Repr

/-- The params of a tools/call request: `{ name, arguments }`.  A client
that omits `arguments` entirely is outside the model (in JS that raises a
TypeError mid-handler); absent individual argument properties are the
`none` fields of ToolArgs. -/
structure ToolCallParams where
  name : Option String
  arguments : ToolArgs
deriving DecidableEq, Repr

/-- Entry of the list_sources answer and of the info document:
`{ name: s.name, url: s.url || s.raw }`. -/
structure SourceInfo where
  name : String
  url : Option String
deriving DecidableEq, Repr

/-- Projection used by search_classes:
`{ name, tags, description: c.desc, source: c._source }`. -/
structure ClassSummary where
  name : String
  tags : Option (List String)
  description : Option String
  source : String
deriving DecidableEq, Repr

/-- Projection listed by the get_class disambiguation message:
`{ name: c.name, source: c._source, desc: c.desc }`. -/
structure ClassCandidate where
  name : String
  source : String
  desc : Option String
deriving DecidableEq, Repr

/-- Projection used by search_functions: `{ className, name, type,
description, source }`. -/
structure FunctionSummary where
  className : String
  name : String
  type : Option String
  description : Option String
  source : String
deriving DecidableEq, Repr

/-- `{...func, _source: targetClass._source, _className: targetClass.name}`
as produced by get_function. -/
structure AnnotatedFunction where
  name : String
  function_type : Option String
  desc : Option String
  extra : List (String × String)
  _source : String
  _className : String
deriving DecidableEq, Repr

/-- The text payload of a tool result, one constructor per string template
or JSON.stringify call of the worker, carrying exactly the data that
template interpolates. -/
inductive ToolText where
  | jsonClasses (data : List TaggedClass)
  | jsonSources (data : List SourceInfo)
  | jsonClassSummaries (data : List ClassSummary)
  | jsonClass (c : TaggedClass)
  | classNotFound (name : String)
  | ambiguousClass (count : Nat) (name : String) (candidates : List ClassCandidate)
  | jsonFunctionSummaries (data : List FunctionSummary)
  | functionNotFound (functionName : String) (className : String)
  | jsonFunction (f : AnnotatedFunction)
  | jsonFunctions (fs : List AnnotatedFunction)
deriving DecidableEq, Repr

/-- One entry of a result's `content` array; the worker always builds
`{ type: 'text', text: ... }`. -/
structure ContentItem where
  type : String
  text : ToolText
deriving DecidableEq, Repr

/-- One tool of the fixed catalogue answered by tools/list, with the
property and required-property names of its input schema. -/
structure ToolSpec where
  name : String
  description : String
  properties : List String
  required : List String
deriving DecidableEq, Repr

/-- The six catalogued tools, as listed by tools/list. -/
def toolCatalog : List ToolSpec :=
  [⟨"list_sources", "List all documentation sources configured in this MCP server", [], []⟩,
   ⟨"get_raw_api_data", "Get the complete raw API documentation data from all sources",
     ["source"], []⟩,
   ⟨"search_classes", "Search for classes by name or tag across all sources",
     ["query", "tag", "source"], []⟩,
   ⟨"get_class", "Get detailed information about a specific class",
     ["name", "source"], ["name"]⟩,
   ⟨"search_functions", "Search for functions across all classes and sources",
     ["query", "className", "source"], []⟩,
   ⟨"get_function", "Get detailed information about a specific function",
     ["className", "functionName", "source"], ["className", "functionName"]⟩]

/-- A JSON-RPC error object. -/
structure ErrorObj where
  code : Int
  message : String
  data : Option String
deriving DecidableEq, Repr

/-- Result payloads of the three handled methods. -/
inductive RpcResult where
  | initResult (protocolVersion serverName serverVersion : String)
  | toolsList (tools : List ToolSpec)
  | toolResult (content : List ContentItem)
deriving DecidableEq, Repr

/-- A response envelope carries either a result or an error. -/
inductive EnvBody where
  | ok (r : RpcResult)
  | err (e : ErrorObj)
deriving DecidableEq, Repr

/-- A JSON-RPC response envelope.  `id = none` models an absent id (the
parse-error response omits it); ids are modelled as integers.  The
initialize answer additionally carries a top-level `_sessionId`. -/
structure Envelope where
  jsonrpc : String
  id : Option Int
  body : EnvBody
  _sessionId : Option String
deriving DecidableEq, Repr

def resultEnvelope (id : Option Int) (r : RpcResult) : Envelope :=
  ⟨"2.0", id, EnvBody.ok r, none⟩

def errorEnvelope (id : Option Int) (e : ErrorObj) : Envelope :=
  ⟨"2.0", id, EnvBody.err e, none⟩

/-- Wraps a text payload the way every tool answer is wrapped:
`result: { content: [ { type: 'text', text } ] }`. -/
def textResult (id : Option Int) (t : ToolText) : Envelope :=
  resultEnvelope id (RpcResult.toolResult [⟨"text", t⟩])

/-- get_raw_api_data: the corpus, filtered to one source when the `source`
argument is supplied (truthy). -/
def getRawApiData (rawData : List TaggedClass) (args : ToolArgs) : List TaggedClass :=
  if truthyStr args.source then
    rawData.filter (fun c => some c._source == args.source)
  else rawData

/-- The search_classes filter predicate, one record at a time. -/
def classMatch (args : ToolArgs) (c : TaggedClass) : Bool :=
  if truthyStr args.source && (some c._source != args.source) then false
  else if truthyStr args.query
      && !(jsIncludes c.name.toLower (args.query.getD "").toLower) then false
  else if truthyStr args.tag then
    match c.tags with
    | none => false
    | some ts => ts.contains (args.tag.getD "")
  else true

def classSummaryOf (c : TaggedClass) : ClassSummary :=
  ⟨c.name, c.tags, c.desc, c._source⟩

/-- get_class candidate computation: exact name match, then the optional
source filter. -/
def getClassMatches (rawData : List TaggedClass) (args : ToolArgs) : List TaggedClass :=
  let classData := rawData.filter (fun c => some c.name == args.name)
  if truthyStr args.source then
    classData.filter (fun c => some c._source == args.source)
  else classData

def classCandidateOf (c : TaggedClass) : ClassCandidate :=
  ⟨c.name, c._source, c.desc⟩

/-- The get_class case body: not-found text, the single full record, or the
disambiguation text interpolating the match count and listing every
candidate with its source. -/
def getClassContent (rawData : List TaggedClass) (args : ToolArgs) : ToolText :=
  match getClassMatches rawData args with
  | [] => ToolText.classNotFound (jsShow args.name)
  | [c] => ToolText.jsonClass c
  | cs => ToolText.ambiguousClass cs.length (jsShow args.name) (cs.map classCandidateOf)

/-- The function summaries one class contributes to search_functions. -/
def classFunctionSummaries (args : ToolArgs) (c : TaggedClass) : List FunctionSummary :=
  if truthyStr args.source && (some c._source != args.source) then []
  else if truthyStr args.className && (some c.name != args.className) then []
  else
    ((c.functions.getD []).filter
        (fun f => !truthyStr args.query
          || jsIncludes f.name.toLower (args.query.getD "").toLower)).map
      (fun f => ⟨c.name, f.name, f.function_type, f.desc, c._source⟩)

/-- search_functions: the nested loops over the corpus and over each
class's functions, in corpus order. -/
def searchFunctions (rawData : List TaggedClass) (args : ToolArgs) : List FunctionSummary :=
  (rawData.map (classFunctionSummaries args)).flatten

/-- get_function candidate classes: exact class-name match, then the
optional source filter. -/
def getFunctionTargets (rawData : List TaggedClass) (args : ToolArgs) : List TaggedClass :=
  let targets := rawData.filter (fun c => some c.name == args.className)
  if truthyStr args.source then
    targets.filter (fun c => some c._source == args.source)
  else targets

def annotateFunction (c : TaggedClass) (f : FunctionRecord) : AnnotatedFunction :=
  ⟨f.name, f.function_type, f.desc, f.extra, c._source, c.name⟩

/-- Within each candidate class, the first function whose name matches
exactly (`targetClass.functions?.find(...)`), annotated. -/
def foundFunctionsIn (targets : List TaggedClass) (args : ToolArgs) : List AnnotatedFunction :=
  (targets.map (fun c =>
    match (c.functions.getD []).find? (fun f => some f.name == args.functionName) with
    | some f => [annotateFunction c f]
    | none => [])).flatten

/-- The get_function case body. -/
def getFunctionContent (rawData : List TaggedClass) (args : ToolArgs) : ToolText :=
  let targets := getFunctionTargets rawData args
  if targets.isEmpty then
    ToolText.classNotFound (jsShow args.className)
  else
    match foundFunctionsIn targets args with
    | [] => ToolText.functionNotFound (jsShow args.functionName) (jsShow args.className)
    | [f] => ToolText.jsonFunction f
    | fs => ToolText.jsonFunctions fs

/-- The switch over the tool name inside tools/call, acting on the already
aggregated corpus (`rawData`).  list_sources never reaches this switch; an
unrecognized name falls into the default case. -/
def dispatchTool (rawData : List TaggedClass) (id : Option Int) (p : ToolCallParams) : Envelope :=
  if p.name = some "get_raw_api_data" then
    textResult id (ToolText.jsonClasses (getRawApiData rawData p.arguments))
  else if p.name = some "search_classes" then
    textResult id (ToolText.jsonClassSummaries
      ((rawData.filter (classMatch p.arguments)).map classSummaryOf))
  else if p.name = some "get_class" then
    textResult id (getClassContent rawData p.arguments)
  else if p.name = some "search_functions" then
    textResult id (ToolText.jsonFunctionSummaries (searchFunctions rawData p.arguments))
  else if p.name = some "get_function" then
    textResult id (getFunctionContent rawData p.arguments)
  else
    errorEnvelope id ⟨-32601, "Unknown tool: " ++ jsShow p.name, none⟩

/-- Placeholder for the engine TypeError message produced when destructuring
undefined params; its exact text is engine-specific and not modelled. -/
def paramsUndefinedMsg : String := "Cannot destructure properties of undefined"

/-- The tools/call method handler: destructures params (undefined params
throw, caught as an internal error), answers list_sources straight from the
registry, and otherwise aggregates before entering the switch. -/
def handleToolsCall (net : Net) (sources : List DocSource) (id : Option Int)
    (params : Option ToolCallParams) : Envelope :=
  match params with
  | none => errorEnvelope id ⟨-32603, "Internal error", some paramsUndefinedMsg⟩
  | some p =>
    if p.name = some "list_sources" then
      textResult id (ToolText.jsonSources (sources.map (fun s => ⟨s.name, jsOr s.url s.raw⟩)))
    else
      dispatchTool (fetchAllSources net sources) id p

/-- A JSON-RPC message as the worker sees it after JSON parsing:
every envelope property may be absent. -/
structure JsonRpcMessage where
  jsonrpc : Option String := none
  id : Option Int := none
  method : Option String := none
  params : Option ToolCallParams := none
deriving DecidableEq, Repr

/-- The per-message handler.  `uuid` models the value crypto.randomUUID
returns during this call (only the initialize branch reads it). -/
def handleRequest (uuid : String) (net : Net) (sources : List DocSource)
    (msg : JsonRpcMessage) : Envelope :=
  if msg.method = some "initialize" then
    { jsonrpc := "2.0", id := msg.id,
      body := EnvBody.ok (RpcResult.initResult "2025-03-26" "moonwave-mcp-server" "1.0.0"),
      _sessionId := some uuid }
  else if msg.method = some "tools/list" then
    resultEnvelope msg.id (RpcResult.toolsList toolCatalog)
  else if msg.method = some "tools/call" then
    handleToolsCall net sources msg.id msg.params
  else
    errorEnvelope msg.id ⟨-32601, "Method not found", none⟩

/-- A parsed POST body: either a single message or a batch array. -/
inductive PostBody where
  | single (m : JsonRpcMessage)
  | batch (ms : List JsonRpcMessage)
deriving DecidableEq, Repr

/-- `Array.isArray(body) ? body : [body]`. -/
def normalizeBody : PostBody → List JsonRpcMessage
  | PostBody.single m => [m]
  | PostBody.batch ms => ms

/-- An incoming HTTP request, restricted to what the worker consults.
`body = none` models a POST body that fails JSON parsing (request.json()
throws). -/
structure HttpRequest where
  method : String
  path : String
  origin : Option String := none
  accept : Option String := none
  mcpSessionId : Option String := none
  body : Option PostBody := none
deriving DecidableEq, Repr

/-- An HTTP response body as the worker builds it. -/
inductive RespBody where
  | empty
  | text (s : String)
  | infoDoc (name version description protocolVersion : String)
      (sources : List SourceInfo) (mcpEndpoint : String)
  | rpcSingle (e : Envelope)
  | rpcBatch (es : List Envelope)
  | sseFrames (frames : List Envelope)
  | sseOpen
deriving DecidableEq, Repr

structure HttpResponse where
  status : Nat
  body : RespBody
  headers : List (String × String)
deriving DecidableEq, Repr

/-- The worker's getCorsHeaders: the allow-origin value echoes the Origin
header when truthy and falls back to the wildcard. -/
def getCorsHeaders (req : HttpRequest) : List (String × String) :=
  [("Access-Control-Allow-Origin", if truthyStr req.origin then req.origin.getD "" else "*"),
   ("Access-Control-Allow-Methods", "GET, POST, OPTIONS"),
   ("Access-Control-Allow-Headers", "Content-Type, Accept, Mcp-Session-Id, Last-Event-ID")]

/-- `messages.some(msg => msg.method && msg.id !== undefined)`. -/
def hasRequests (messages : List JsonRpcMessage) : Bool :=
  messages.any (fun m => truthyStr m.method && m.id.isSome)

/-- `accept.includes('text/event-stream')` with `accept` defaulted to the
empty string. -/
def acceptsEventStream (req : HttpRequest) : Bool :=
  jsIncludes (req.accept.getD "") "text/event-stream"

/-- The worker's handlePost: parse-error envelope on unparseable JSON, 202
with empty body when the batch holds no request, one SSE frame per
id-bearing message when the client accepts an event stream, and otherwise
one buffered JSON body holding a single envelope (batch of one) or the
array of envelopes, in input order. -/
def handlePost (uuid : String) (net : Net) (sources : List DocSource)
    (req : HttpRequest) : HttpResponse :=
  match req.body with
  | none =>
    { status := 400,
      body := RespBody.rpcSingle (errorEnvelope none ⟨-32700, "Parse error", none⟩),
      headers := ("Content-Type", "application/json") :: getCorsHeaders req }
  | some b =>
    let messages := normalizeBody b
    if !hasRequests messages then
      { status := 202, body := RespBody.empty, headers := getCorsHeaders req }
    else if acceptsEventStream req then
      { status := 200,
        body := RespBody.sseFrames
          ((messages.filter (fun m => m.id.isSome)).map (handleRequest uuid net sources)),
        headers := [("Content-Type", "text/event-stream"), ("Cache-Control", "no-cache"),
          ("Connection", "keep-alive")] ++ getCorsHeaders req }
    else
      let responses := (messages.filter (fun m => m.id.isSome)).map (handleRequest uuid net sources)
      { status := 200,
        body := match responses with
          | [r] => RespBody.rpcSingle r
          | rs => RespBody.rpcBatch rs,
        headers := ("Content-Type", "application/json") :: getCorsHeaders req }

/-- The worker's handleGet: a bare 405 unless the client accepts an event
stream, else the long-lived stream (heartbeat and idle-close timers are not
modelled). -/
def handleGet (req : HttpRequest) : HttpResponse :=
  if !acceptsEventStream req then
    { status := 405, body := RespBody.text "Method Not Allowed", headers := [] }
  else
    { status := 200, body := RespBody.sseOpen,
      headers := [("Content-Type", "text/event-stream"), ("Cache-Control", "no-cache"),
        ("Connection", "keep-alive")] ++ getCorsHeaders req }

/-- The worker's top-level fetch router.  `sources` is the parsed
DOC_SOURCES registry of the environment. -/
def routerFetch (uuid : String) (net : Net) (sources : List DocSource)
    (req : HttpRequest) : HttpResponse :=
  if req.path = "/mcp" || req.path = "/mcp/" then
    if req.method = "POST" then handlePost uuid net sources req
    else if req.method = "GET" then handleGet req
    else if req.method = "OPTIONS" then
      { status := 204, body := RespBody.empty, headers := getCorsHeaders req }
    else { status := 405, body := RespBody.text "Method Not Allowed", headers := [] }
  else if req.path = "/" && req.method = "GET" then
    { status := 200,
      body := RespBody.infoDoc "moonwave-mcp-server" "1.0.0"
        "MCP server for Moonwave API documentation" "2025-03-26"
        (sources.map (fun s => ⟨s.name, jsOr s.url s.raw⟩)) "/mcp",
      headers := ("Content-Type", "application/json") :: getCorsHeaders req }
  else { status := 404, body := RespBody.text "Not Found", headers := [] }

/-- The Access-Control-Allow-Origin value a response carries, if any. -/
def corsOriginOf (r : HttpResponse) : Option String :=
  (r.headers.find? (fun p => p.fst == "Access-Control-Allow-Origin")).map (fun p => p.snd)

/-- The JSON-RPC envelopes a response delivers (buffered single, buffered
batch, or one per SSE data frame). -/
def envelopesOf (r : HttpResponse) : List Envelope :=
  match r.body with
  | RespBody.rpcSingle e => [e]
  | RespBody.rpcBatch es => es
  | RespBody.sseFrames es => es
  | _ => []

/-! Concrete fixtures used by witnesses and counterexamples. -/

def wFnEat : FunctionRecord := ⟨"eat", some "method", some "eats the fruit", [("params", "none")]⟩

def wClassA : ClassRecord := ⟨"Apple", some "a fruit class", some ["core"], some [wFnEat], []⟩

def wClassC : ClassRecord := ⟨"Cherry", some "embedded class", none, some [], []⟩

/-- A source resolved through its documentation site URL. -/
def wS1 : DocSource := ⟨"one", some "https://one.example", none, none, none⟩

/-- A remote source whose fetch will fail. -/
def wS2 : DocSource := ⟨"two", none, some "https://two.example/raw.json", none, none⟩

/-- An embedded snapshot source. -/
def wS3 : DocSource := ⟨"three", none, none, some "owner/three", some [wClassC]⟩

/-- A network where source one succeeds and source two answers HTTP 500. -/
def wNet : Net := fun u =>
  if u = "https://one.example/raw.json" then FetchOutcome.ok [wClassA]
  else if u = "https://two.example/raw.json" then FetchOutcome.httpError 500
  else FetchOutcome.networkError

/-- A network where every fetch fails. -/
def wAllFailNet : Net := fun _ => FetchOutcome.networkError

/-! Helper lemmas shared by several claim proofs. -/

theorem fetchAllSources_append (net : Net) (l1 l2 : List DocSource) :
    fetchAllSources net (l1 ++ l2) = fetchAllSources net l1 ++ fetchAllSources net l2 := by
  induction l1 with
  | nil => rfl
  | cons s rest ih => simp [fetchAllSources, ih]

theorem fetchAllSources_eq_flatten (net : Net) (sources : List DocSource) :
    fetchAllSources net sources = (sources.map (sourceRecords net)).flatten := by
  induction sources with
  | nil => rfl
  | cons s rest ih => simp [fetchAllSources, ih]

theorem sourceRecords_eq_stamped (net : Net) (s : DocSource) :
    sourceRecords net s = (sourceData net s).map (fun c => stampClass c s.name (stampUrl s)) := by
  unfold sourceRecords sourceData stampUrl
  cases s._embeddedData with
  | some data => simp
  | none =>
    cases hru : resolveRawUrl s with
    | none => simp
    | some u =>
      cases hnet : net u with
      | ok data => simp [hnet]
      | httpError status => simp [hnet]
      | networkError => simp [hnet]
      | malformedPayload => simp [hnet]

/-- C1: if one source's fetch fails (network error, non-success HTTP status,
or malformed payload), aggregation still returns, the failed source
contributes zero records, and the corpus is exactly the concatenation of
the remaining sources' records.  The aggregator is a total function, so the
failure is never raised to the caller. -/
theorem failed_source_contributes_nothing (net : Net) (pre post : List DocSource)
    (bad : DocSource)
    (hremote : bad._embeddedData = none)
    (hfail : ∀ u, resolveRawUrl bad = some u → ∀ data, net u ≠ FetchOutcome.ok data) :
    sourceRecords net bad = [] ∧
    fetchAllSources net (pre ++ bad :: post) =
      fetchAllSources net pre ++ fetchAllSources net post := by
  have hbad : sourceRecords net bad = [] := by
    unfold sourceRecords
    rw [hremote]
    cases hu : resolveRawUrl bad with
    | none => rfl
    | some u =>
      cases hnet : net u with
      | ok data => exact absurd hnet (hfail u hu data)
      | httpError status => simp [hnet]
      | networkError => simp [hnet]
      | malformedPayload => simp [hnet]
  refine ⟨hbad, ?_⟩
  rw [fetchAllSources_append]
  show fetchAllSources net pre ++ fetchAllSources net (bad :: post) = _
  simp [fetchAllSources, hbad]

/-- Witness for C1 at the resilience example of the spec: three sources
where the second fails with HTTP 500; the corpus is exactly the records of
sources one and three, stamped. -/
theorem failed_source_contributes_nothing_witness :
    sourceRecords wNet wS2 = [] ∧
    fetchAllSources wNet ([wS1] ++ wS2 :: [wS3]) =
      fetchAllSources wNet [wS1] ++ fetchAllSources wNet [wS3] ∧
    fetchAllSources wNet [wS1, wS2, wS3] =
      [stampClass wClassA "one" (some "https://one.example"),
       stampClass wClassC "three" (some "owner/three")] := by
  have h := failed_source_contributes_nothing wNet [wS1] [wS3] wS2 rfl
    (by
      intro u hu data
      rw [show resolveRawUrl wS2 = some "https://two.example/raw.json" from rfl] at hu
      cases hu
      intro hcontra
      simp [wNet] at hcontra)
  exact ⟨h.1, h.2, by decide⟩

/-- C2: every aggregated record is stamped with `_source` (the owning
source's name) and `_sourceUrl` (its locator), the merged sequence is the
registry-order concatenation of the per-source contributions, and within a
source the records are the source's own records, stamped, in their original
order. -/
theorem aggregation_stamps_and_orders (net : Net) (sources : List DocSource) :
    fetchAllSources net sources = (sources.map (sourceRecords net)).flatten ∧
    (∀ s, sourceRecords net s =
      (sourceData net s).map (fun c => stampClass c s.name (stampUrl s))) ∧
    (∀ r, r ∈ fetchAllSources net sources →
      ∃ s, s ∈ sources ∧ r._source = s.name ∧ r._sourceUrl = stampUrl s) := by
  refine ⟨fetchAllSources_eq_flatten net sources, sourceRecords_eq_stamped net, ?_⟩
  induction sources with
  | nil => intro r hr; cases hr
  | cons s rest ih =>
    intro r hr
    rw [show fetchAllSources net (s :: rest) =
        sourceRecords net s ++ fetchAllSources net rest from rfl] at hr
    rcases List.mem_append.mp hr with hhead | htail
    · rw [sourceRecords_eq_stamped net s] at hhead
      obtain ⟨c, _, hc⟩ := List.mem_map.mp hhead
      exact ⟨s, List.mem_cons_self s rest, by rw [← hc]; exact ⟨rfl, rfl⟩⟩
    · obtain ⟨t, ht, h1, h2⟩ := ih r htail
      exact ⟨t, List.mem_cons_of_mem s ht, h1, h2⟩

/-- Witness for C2: a record of the aggregated two-source corpus carries the
stamps of its owning source. -/
theorem aggregation_stamps_and_orders_witness :
    ∃ s, s ∈ [wS1, wS3] ∧
      (stampClass wClassA "one" (some "https://one.example"))._source = s.name ∧
      (stampClass wClassA "one" (some "https://one.example"))._sourceUrl = stampUrl s :=
  (aggregation_stamps_and_orders wNet [wS1, wS3]).2.2 _ (by decide)

/-! Fixtures for the lookup-tool claims: a two-source corpus in which both
sources define a class named Foo. -/

def wFnRender : FunctionRecord := ⟨"render", some "method", some "draws the widget", [("returns", "nil")]⟩

def wFooA : TaggedClass :=
  ⟨"Foo", some "Foo from A", some ["ui"], some [wFnRender], [], "A", some "https://a.example"⟩

def wFooB : TaggedClass :=
  ⟨"Foo", some "Foo from B", none, some [wFnRender], [], "B", some "https://b.example"⟩

def wCorpus2 : List TaggedClass := [wFooA, wFooB]

/-- C3: get_class with the optional source filter applied: zero matches
yield a not-found text inside a successful result envelope (textResult
builds `EnvBody.ok`, never an error envelope); exactly one match yields the
full record; several matches yield the disambiguation text, which
interpolates the match count, the candidate list naming every candidate
source, and the fixed sentence asking the caller to supply the source
parameter. -/
theorem get_class_zero_one_many (rawData : List TaggedClass) (id : Option Int)
    (args : ToolArgs) :
    (getClassMatches rawData args = [] →
      dispatchTool rawData id ⟨some "get_class", args⟩ =
        textResult id (ToolText.classNotFound (jsShow args.name))) ∧
    (∀ c, getClassMatches rawData args = [c] →
      dispatchTool rawData id ⟨some "get_class", args⟩ =
        textResult id (ToolText.jsonClass c)) ∧
    (2 ≤ (getClassMatches rawData args).length →
      dispatchTool rawData id ⟨some "get_class", args⟩ =
        textResult id (ToolText.ambiguousClass (getClassMatches rawData args).length
          (jsShow args.name) ((getClassMatches rawData args).map classCandidateOf)) ∧
      ∀ c ∈ getClassMatches rawData args,
        c._source ∈ ((getClassMatches rawData args).map classCandidateOf).map
          (fun k => k.source)) := by
  have hd : dispatchTool rawData id ⟨some "get_class", args⟩ =
      textResult id (getClassContent rawData args) := by
    simp [dispatchTool]
  refine ⟨?_, ?_, ?_⟩
  · intro h0
    rw [hd]
    unfold getClassContent
    rw [h0]
  · intro c h1
    rw [hd]
    unfold getClassContent
    rw [h1]
  · intro h2
    rcases hm : getClassMatches rawData args with _ | ⟨a, _ | ⟨b, t⟩⟩
    · rw [hm] at h2; simp at h2
    · rw [hm] at h2; simp at h2
    · constructor
      · rw [hd]
        unfold getClassContent
        rw [hm]
      · intro c hc
        simp only [List.map_map, List.mem_map]
        exact ⟨c, hc, rfl⟩

/-- Witness for C3 at the disambiguation example of the spec: a two-source
corpus with a Foo in each source produces the disambiguation text with
count 2 naming sources A and B; supplying source A returns exactly the
record from A. -/
theorem get_class_zero_one_many_witness :
    dispatchTool wCorpus2 (some 1) ⟨some "get_class", { name := some "Foo" }⟩ =
      textResult (some 1) (ToolText.ambiguousClass 2 "Foo"
        [⟨"Foo", "A", some "Foo from A"⟩, ⟨"Foo", "B", some "Foo from B"⟩]) ∧
    dispatchTool wCorpus2 (some 1) ⟨some "get_class", { name := some "Foo", source := some "A" }⟩ =
      textResult (some 1) (ToolText.jsonClass wFooA) ∧
    dispatchTool wCorpus2 (some 2) ⟨some "get_class", { name := some "Missing" }⟩ =
      textResult (some 2) (ToolText.classNotFound "Missing") := by
  refine ⟨?_, ?_, ?_⟩
  · have h := (get_class_zero_one_many wCorpus2 (some 1) { name := some "Foo" }).2.2 (by decide)
    rw [h.1]; decide
  · exact (get_class_zero_one_many wCorpus2 (some 1)
      { name := some "Foo", source := some "A" }).2.1 wFooA (by decide)
  · exact (get_class_zero_one_many wCorpus2 (some 2) { name := some "Missing" }).1 (by decide)

/-- C4: get_function resolves candidate classes by exact name with the
optional source filter; no candidate class yields a class-not-found text
naming the class, candidates without an exact function-name match yield a
function-not-found text — both inside successful result envelopes — one
match yields the full function record annotated with its owning class and
source, several matches yield the full annotated list. -/
theorem get_function_lookup_cases (rawData : List TaggedClass) (id : Option Int)
    (args : ToolArgs) :
    (getFunctionTargets rawData args = [] →
      dispatchTool rawData id ⟨some "get_function", args⟩ =
        textResult id (ToolText.classNotFound (jsShow args.className))) ∧
    (getFunctionTargets rawData args ≠ [] →
      foundFunctionsIn (getFunctionTargets rawData args) args = [] →
      dispatchTool rawData id ⟨some "get_function", args⟩ =
        textResult id (ToolText.functionNotFound (jsShow args.functionName)
          (jsShow args.className))) ∧
    (∀ f, getFunctionTargets rawData args ≠ [] →
      foundFunctionsIn (getFunctionTargets rawData args) args = [f] →
      dispatchTool rawData id ⟨some "get_function", args⟩ =
        textResult id (ToolText.jsonFunction f)) ∧
    (getFunctionTargets rawData args ≠ [] →
      2 ≤ (foundFunctionsIn (getFunctionTargets rawData args) args).length →
      dispatchTool rawData id ⟨some "get_function", args⟩ =
        textResult id (ToolText.jsonFunctions
          (foundFunctionsIn (getFunctionTargets rawData args) args))) := by
  have hd : dispatchTool rawData id ⟨some "get_function", args⟩ =
      textResult id (getFunctionContent rawData args) := by
    simp [dispatchTool]
  have hne : ∀ l : List TaggedClass, l ≠ [] → l.isEmpty = false := by
    intro l hl
    cases l with
    | nil => exact absurd rfl hl
    | cons a t => rfl
  refine ⟨?_, ?_, ?_, ?_⟩
  · intro h0
    rw [hd]
    simp [getFunctionContent, h0]
  · intro hne0 h0
    rw [hd]
    simp [getFunctionContent, hne _ hne0, h0]
  · intro f hne0 h1
    rw [hd]
    simp [getFunctionContent, hne _ hne0, h1]
  · intro hne0 h2
    rcases hm : foundFunctionsIn (getFunctionTargets rawData args) args with _ | ⟨a, _ | ⟨b, t⟩⟩
    · rw [hm] at h2; simp at h2
    · rw [hm] at h2; simp at h2
    · rw [hd]
      simp [getFunctionContent, hne _ hne0, hm]

/-- Witness for C4 at the spec's examples: a corpus with no class named
Widget answers class-not-found for Widget inside a result envelope; the
ambiguous Foo corpus returns both annotated render functions; filtering to
source A returns the single annotated record. -/
theorem get_function_lookup_cases_witness :
    dispatchTool wCorpus2 (some 3)
        ⟨some "get_function", { className := some "Widget", functionName := some "render" }⟩ =
      textResult (some 3) (ToolText.classNotFound "Widget") ∧
    dispatchTool wCorpus2 (some 4)
        ⟨some "get_function", { className := some "Foo", functionName := some "spin" }⟩ =
      textResult (some 4) (ToolText.functionNotFound "spin" "Foo") ∧
    dispatchTool wCorpus2 (some 5)
        ⟨some "get_function",
          { className := some "Foo", functionName := some "render", source := some "B" }⟩ =
      textResult (some 5) (ToolText.jsonFunction (annotateFunction wFooB wFnRender)) ∧
    dispatchTool wCorpus2 (some 6)
        ⟨some "get_function", { className := some "Foo", functionName := some "render" }⟩ =
      textResult (some 6) (ToolText.jsonFunctions
        [annotateFunction wFooA wFnRender, annotateFunction wFooB wFnRender]) := by
  refine ⟨?_, ?_, ?_, ?_⟩
  · exact (get_function_lookup_cases wCorpus2 (some 3)
      { className := some "Widget", functionName := some "render" }).1 (by decide)
  · exact (get_function_lookup_cases wCorpus2 (some 4)
      { className := some "Foo", functionName := some "spin" }).2.1 (by decide) (by decide)
  · exact (get_function_lookup_cases wCorpus2 (some 5)
      { className := some "Foo", functionName := some "render", source := some "B" }).2.2.1
      (annotateFunction wFooB wFnRender) (by decide) (by decide)
  · have h := (get_function_lookup_cases wCorpus2 (some 6)
      { className := some "Foo", functionName := some "render" }).2.2.2 (by decide) (by decide)
    rw [h]; decide

/-- C5: a parsed POST body (single messages are wrapped into a one-element
batch) in which no message carries both a method and a defined id is
answered with HTTP 202 and an empty body — no JSON-RPC response envelope —
whatever the batch size. -/
theorem notifications_only_yield_202 (uuid : String) (net : Net)
    (sources : List DocSource) (req : HttpRequest) (b : PostBody)
    (hb : req.body = some b)
    (hnone : ∀ m ∈ normalizeBody b, ¬(m.method ≠ none ∧ m.id ≠ none)) :
    handlePost uuid net sources req =
      { status := 202, body := RespBody.empty, headers := getCorsHeaders req } ∧
    envelopesOf (handlePost uuid net sources req) = [] := by
  have hreq : hasRequests (normalizeBody b) = false := by
    unfold hasRequests
    rw [List.any_eq_false]
    intro m hm
    intro hcontra
    rw [Bool.and_eq_true] at hcontra
    apply hnone m hm
    constructor
    · intro hmn
      rw [hmn] at hcontra
      exact absurd hcontra.1 (by simp [truthyStr])
    · intro hin
      rw [hin] at hcontra
      exact absurd hcontra.2 (by simp)
  have h1 : handlePost uuid net sources req =
      { status := 202, body := RespBody.empty, headers := getCorsHeaders req } := by
    unfold handlePost
    rw [hb]
    simp [hreq]
  exact ⟨h1, by rw [h1]; rfl⟩

/-- Witness for C5: an empty batch, and a three-message batch holding two
notifications and one method-less id-less message, both answered 202 with
empty body. -/
theorem notifications_only_yield_202_witness :
    handlePost "uuid-0" wNet [wS1]
        { method := "POST", path := "/mcp", origin := some "https://app.example",
          body := some (PostBody.batch []) } =
      { status := 202, body := RespBody.empty,
        headers := getCorsHeaders
          { method := "POST", path := "/mcp", origin := some "https://app.example",
            body := some (PostBody.batch []) } } ∧
    handlePost "uuid-0" wNet [wS1]
        { method := "POST", path := "/mcp",
          body := some (PostBody.batch
            [{ jsonrpc := some "2.0", method := some "notifications/initialized" },
             { jsonrpc := some "2.0", method := some "notifications/cancelled" },
             { jsonrpc := some "2.0" }]) } =
      { status := 202, body := RespBody.empty,
        headers := getCorsHeaders
          { method := "POST", path := "/mcp",
            body := some (PostBody.batch
              [{ jsonrpc := some "2.0", method := some "notifications/initialized" },
               { jsonrpc := some "2.0", method := some "notifications/cancelled" },
               { jsonrpc := some "2.0" }]) } } := by
  constructor
  · exact (notifications_only_yield_202 "uuid-0" wNet [wS1] _ (PostBody.batch []) rfl
      (by intro m hm; cases hm)).1
  · exact (notifications_only_yield_202 "uuid-0" wNet [wS1] _ (PostBody.batch
      [{ jsonrpc := some "2.0", method := some "notifications/initialized" },
       { jsonrpc := some "2.0", method := some "notifications/cancelled" },
       { jsonrpc := some "2.0" }]) rfl (by decide)).1

/-- C6: a tools/call whose tool name is none of the six catalogued tools is
answered with a JSON-RPC error envelope of code -32601 whose message
contains the unknown name. -/
theorem unknown_tool_yields_32601 (net : Net) (sources : List DocSource)
    (id : Option Int) (p : ToolCallParams) (n : String)
    (hn : p.name = some n)
    (hunknown : n ∉ toolCatalog.map (fun t => t.name)) :
    handleToolsCall net sources id (some p) =
      errorEnvelope id ⟨-32601, "Unknown tool: " ++ n, none⟩ ∧
    ∃ pre post, "Unknown tool: " ++ n = pre ++ n ++ post := by
  simp only [toolCatalog, List.map, List.mem_cons, List.not_mem_nil] at hunknown
  push_neg at hunknown
  obtain ⟨h1, h2, h3, h4, h5, h6, -⟩ := hunknown
  constructor
  · unfold handleToolsCall dispatchTool
    simp [hn, h1, h2, h3, h4, h5, h6, jsShow]
  · exact ⟨"Unknown tool: ", "", by simp⟩

/-- Witness for C6 at the spec's example name delete_everything. -/
theorem unknown_tool_yields_32601_witness :
    handleToolsCall wNet [wS1] (some 9) (some ⟨some "delete_everything", {}⟩) =
      errorEnvelope (some 9) ⟨-32601, "Unknown tool: delete_everything", none⟩ ∧
    ∃ pre post,
      "Unknown tool: delete_everything" = pre ++ "delete_everything" ++ post := by
  have h := unknown_tool_yields_32601 wNet [wS1] (some 9) ⟨some "delete_everything", {}⟩
    "delete_everything" rfl (by decide)
  exact ⟨h.1, h.2⟩

/-- The buffered POST body (single envelope for a batch of one, the array
otherwise) always delivers exactly the response list. -/
theorem envelopesOf_buffered (responses : List Envelope) (status : Nat)
    (headers : List (String × String)) :
    envelopesOf ⟨status,
      (match responses with
       | [r] => RespBody.rpcSingle r
       | rs => RespBody.rpcBatch rs), headers⟩ = responses := by
  match responses with
  | [] => rfl
  | [r] => rfl
  | a :: b :: t => rfl

/-- C10: the request/notification partition is asymmetric — presence of a
request is tested as method-and-id, but dispatch then selects every message
with a defined id regardless of method.  In a batch containing a true
request (buffered delivery), a message with a defined id and no method is
dispatched too and contributes a -32601 Method-not-found error envelope
bearing its id. -/
theorem id_without_method_is_dispatched (uuid : String) (net : Net)
    (sources : List DocSource) (req : HttpRequest) (b : PostBody)
    (m : JsonRpcMessage) (i : Int)
    (hb : req.body = some b)
    (hhas : hasRequests (normalizeBody b) = true)
    (hacc : acceptsEventStream req = false)
    (hm : m ∈ normalizeBody b)
    (hid : m.id = some i)
    (hmethod : m.method = none) :
    errorEnvelope (some i) ⟨-32601, "Method not found", none⟩ ∈
      envelopesOf (handlePost uuid net sources req) := by
  have hresp : handleRequest uuid net sources m =
      errorEnvelope (some i) ⟨-32601, "Method not found", none⟩ := by
    unfold handleRequest
    rw [hmethod, hid]
    simp
  have hpost : handlePost uuid net sources req =
      { status := 200,
        body := (match ((normalizeBody b).filter (fun m => m.id.isSome)).map
            (handleRequest uuid net sources) with
          | [r] => RespBody.rpcSingle r
          | rs => RespBody.rpcBatch rs),
        headers := ("Content-Type", "application/json") :: getCorsHeaders req } := by
    unfold handlePost
    rw [hb]
    simp [hhas, hacc]
  rw [hpost, envelopesOf_buffered]
  rw [← hresp]
  exact List.mem_map_of_mem _ (List.mem_filter.mpr ⟨hm, by rw [hid]; rfl⟩)

/-- Witness for C10: a batch of an initialize request and a bare response
object with id 2 produces an output containing the Method-not-found error
envelope with id 2. -/
theorem id_without_method_is_dispatched_witness :
    errorEnvelope (some 2) ⟨-32601, "Method not found", none⟩ ∈
      envelopesOf (handlePost "uuid-0" wNet [wS1]
        { method := "POST", path := "/mcp",
          body := some (PostBody.batch
            [{ jsonrpc := some "2.0", id := some 1, method := some "initialize" },
             { jsonrpc := some "2.0", id := some 2 }]) }) :=
  id_without_method_is_dispatched "uuid-0" wNet [wS1] _ _
    { jsonrpc := some "2.0", id := some 2 } 2 rfl (by decide) (by decide)
    (by decide) rfl rfl

/-- C9: every tool is deterministic given a fixed corpus snapshot — two
evaluations of tools/call against identical aggregations, under different
network states and different minted session ids, yield identical
(structurally, hence byte-identically serialized) envelopes — and a
registry consisting solely of embedded snapshots aggregates identically
under any two network states, so successive get_raw_api_data calls agree. -/
theorem tools_call_deterministic (sources : List DocSource) (net1 net2 : Net)
    (uuid1 uuid2 : String) (msg : JsonRpcMessage) :
    (msg.method = some "tools/call" →
      fetchAllSources net1 sources = fetchAllSources net2 sources →
      handleRequest uuid1 net1 sources msg = handleRequest uuid2 net2 sources msg) ∧
    (sources.all (fun s => s._embeddedData.isSome) = true →
      fetchAllSources net1 sources = fetchAllSources net2 sources) := by
  constructor
  · intro hm hagg
    unfold handleRequest
    rw [hm]
    simp only [Option.some.injEq, reduceIte]
    unfold handleToolsCall
    cases msg.params with
    | none => rfl
    | some p =>
      by_cases hp : p.name = some "list_sources"
      · simp [hp]
      · simp only [if_neg hp]
        rw [hagg]
        rfl
  · intro hall
    induction sources with
    | nil => rfl
    | cons s rest ih =>
      rw [List.all_cons, Bool.and_eq_true] at hall
      obtain ⟨d, hd⟩ := Option.isSome_iff_exists.mp hall.1
      show sourceRecords net1 s ++ _ = sourceRecords net2 s ++ _
      rw [ih hall.2]
      unfold sourceRecords
      rw [hd]

/-- Witness for C9: a registry holding only the embedded snapshot source
aggregates and answers get_raw_api_data identically under a working network
and a fully failing network, with different session-id seeds. -/
theorem tools_call_deterministic_witness :
    handleRequest "uuid-a" wNet [wS3]
        { id := some 7, method := some "tools/call",
          params := some ⟨some "get_raw_api_data", {}⟩ } =
      handleRequest "uuid-b" wAllFailNet [wS3]
        { id := some 7, method := some "tools/call",
          params := some ⟨some "get_raw_api_data", {}⟩ } :=
  (tools_call_deterministic [wS3] wNet wAllFailNet "uuid-a" "uuid-b"
      { id := some 7, method := some "tools/call",
        params := some ⟨some "get_raw_api_data", {}⟩ }).1 rfl
    ((tools_call_deterministic [wS3] wNet wAllFailNet "uuid-a" "uuid-b"
        { id := some 7, method := some "tools/call",
          params := some ⟨some "get_raw_api_data", {}⟩ }).2 (by decide))

/-- The reflected allow-origin value: the Origin header when truthy, else
the wildcard. -/
def reflectedOrigin (req : HttpRequest) : String :=
  if truthyStr req.origin then req.origin.getD "" else "*"

theorem corsOriginOf_cors_only (req : HttpRequest) (status : Nat) (body : RespBody) :
    corsOriginOf ⟨status, body, getCorsHeaders req⟩ = some (reflectedOrigin req) := by
  simp [corsOriginOf, getCorsHeaders, reflectedOrigin, List.find?]

theorem corsOriginOf_json (req : HttpRequest) (status : Nat) (body : RespBody) :
    corsOriginOf ⟨status, body, ("Content-Type", "application/json") :: getCorsHeaders req⟩ =
      some (reflectedOrigin req) := by
  simp [corsOriginOf, getCorsHeaders, reflectedOrigin, List.find?]

theorem corsOriginOf_stream (req : HttpRequest) (status : Nat) (body : RespBody) :
    corsOriginOf ⟨status, body,
        [("Content-Type", "text/event-stream"), ("Cache-Control", "no-cache"),
         ("Connection", "keep-alive")] ++ getCorsHeaders req⟩ =
      some (reflectedOrigin req) := by
  simp [corsOriginOf, getCorsHeaders, reflectedOrigin, List.find?]

/-- Counterexample to C7 as stated: a GET of an unknown path carries an
Origin header, yet the 404 response carries no CORS headers at all (the
claim demands an Access-Control-Allow-Origin echoing the Origin). -/
theorem router_404_lacks_cors :
    (routerFetch "uuid-0" wNet [wS1]
        { method := "GET", path := "/definitely-not-here",
          origin := some "https://app.example" }).status = 404 ∧
    corsOriginOf (routerFetch "uuid-0" wNet [wS1]
        { method := "GET", path := "/definitely-not-here",
          origin := some "https://app.example" }) = none ∧
    (routerFetch "uuid-0" wNet [wS1]
        { method := "GET", path := "/definitely-not-here",
          origin := some "https://app.example" }).headers = [] := by
  refine ⟨rfl, rfl, rfl⟩

/-- Any response whose header list is one of the three shapes the worker
builds around getCorsHeaders carries the reflected allow-origin. -/
theorem corsOriginOf_of_headers (r : HttpResponse) (req : HttpRequest)
    (h : r.headers = getCorsHeaders req ∨
         r.headers = ("Content-Type", "application/json") :: getCorsHeaders req ∨
         r.headers = [("Content-Type", "text/event-stream"), ("Cache-Control", "no-cache"),
           ("Connection", "keep-alive")] ++ getCorsHeaders req) :
    corsOriginOf r = some (reflectedOrigin req) := by
  unfold corsOriginOf
  rcases h with h | h | h <;> rw [h] <;>
    simp [getCorsHeaders, reflectedOrigin, List.find?]

/-- Every handlePost response carries one of the worker's three
CORS-bearing header shapes. -/
theorem handlePost_headers (uuid : String) (net : Net) (sources : List DocSource)
    (req : HttpRequest) :
    (handlePost uuid net sources req).headers = getCorsHeaders req ∨
    (handlePost uuid net sources req).headers =
      ("Content-Type", "application/json") :: getCorsHeaders req ∨
    (handlePost uuid net sources req).headers =
      [("Content-Type", "text/event-stream"), ("Cache-Control", "no-cache"),
       ("Connection", "keep-alive")] ++ getCorsHeaders req := by
  unfold handlePost
  cases req.body with
  | none => right; left; rfl
  | some b =>
    by_cases h1 : hasRequests (normalizeBody b)
    · by_cases h2 : acceptsEventStream req
      · right; right; simp [h1, h2]
      · right; left; simp [h1, h2]
    · left; simp [h1]

/-- handleGet answers either the bare 405 without CORS headers or the
stream response with them. -/
theorem handleGet_cases (req : HttpRequest) :
    ((handleGet req).status = 405 ∧ corsOriginOf (handleGet req) = none) ∨
    corsOriginOf (handleGet req) = some (reflectedOrigin req) := by
  unfold handleGet
  by_cases h : acceptsEventStream req
  · right
    apply corsOriginOf_of_headers _ req
    right; right
    simp [h]
  · left
    simp [h, corsOriginOf]

/-- C7 amended: every response whose status is not 404 or 405 carries CORS
headers whose allow-origin equals the request's Origin when present and
non-empty, and the wildcard otherwise; the plain-text 404 and 405 responses
(unknown path, unsupported method on the MCP endpoint, and a GET of the MCP
endpoint that does not accept an event stream) carry no CORS headers. -/
theorem cors_reflects_origin_except_404_405 (uuid : String) (net : Net)
    (sources : List DocSource) (req : HttpRequest) :
    corsOriginOf (routerFetch uuid net sources req) = some (reflectedOrigin req) ∨
    (((routerFetch uuid net sources req).status = 404 ∨
      (routerFetch uuid net sources req).status = 405) ∧
      corsOriginOf (routerFetch uuid net sources req) = none) := by
  unfold routerFetch
  split_ifs with h1 h2 h3 h4 h5
  · exact Or.inl (corsOriginOf_of_headers _ req (handlePost_headers uuid net sources req))
  · rcases handleGet_cases req with ⟨hs, hc⟩ | hc
    · exact Or.inr ⟨Or.inr hs, hc⟩
    · exact Or.inl hc
  · exact Or.inl (corsOriginOf_of_headers _ req (Or.inl rfl))
  · exact Or.inr ⟨Or.inr rfl, rfl⟩
  · exact Or.inl (corsOriginOf_of_headers _ req (Or.inr (Or.inl rfl)))
  · exact Or.inr ⟨Or.inl rfl, rfl⟩

/-! Fixtures for the fetch-ordering claim: two remote sources. -/

def wR1 : DocSource := ⟨"r1", none, some "https://r1.example/raw.json", none, none⟩

def wR2 : DocSource := ⟨"r2", none, some "https://r2.example/raw.json", none, none⟩

/-- Counterexample to C8 as stated: with two remote sources the aggregation
trace interleaves issue and completion — the second fetch is initiated only
after the first has been fully awaited — so the all-issues-before-any-
completion shape of a concurrent fan-out fails. -/
theorem fetches_not_issued_concurrently :
    fetchTrace [wR1, wR2] =
      [FetchEvent.issue "https://r1.example/raw.json",
       FetchEvent.complete "https://r1.example/raw.json",
       FetchEvent.issue "https://r2.example/raw.json",
       FetchEvent.complete "https://r2.example/raw.json"] ∧
    fanOutShape (fetchTrace [wR1, wR2]) = false := by
  exact ⟨rfl, rfl⟩

/-- C8 amended: remote fetches are issued sequentially in registry order,
each one fully awaited before the next is initiated (the trace is a run of
issue/complete pairs); the aggregator still completes every fetch before
returning, and the output record order follows registry order whatever each
fetch yields. -/
theorem fetches_sequential_registry_order (net : Net) (sources : List DocSource) :
    seqShape (fetchTrace sources) = true ∧
    fetchAllSources net sources = (sources.map (sourceRecords net)).flatten := by
  refine ⟨?_, fetchAllSources_eq_flatten net sources⟩
  induction sources with
  | nil => rfl
  | cons s rest ih =>
    show seqShape (sourceTrace s ++ fetchTrace rest) = true
    unfold sourceTrace
    cases s._embeddedData with
    | some data => simpa using ih
    | none =>
      cases resolveRawUrl s with
      | none => simpa using ih
      | some u => simpa [seqShape] using ih
